import Mathlib

/-!
Verification of the resilient API client in src/main.py (vector-search
operator console). The client core is the function make_api_request
(src/main.py lines 12-29): a fixed-count retry loop around one HTTP
request, plus the call sites in config_section and main. We embed the
client shallowly: each network attempt is an oracle value, the loop is
structural recursion on the remaining iterations of range(MAX_RETRIES),
and the observable effects (network calls issued, sleeps, st.error
messages, the returned payload or the escaping exception) are collected
in a trace.
-/

namespace VectorClient

/-- Constant from src/main.py line 8. -/
def BASE_URL : String := "http://localhost:8000"

/-- Constant from src/main.py line 9. -/
def MAX_RETRIES : Nat := 10

/-- Constant from src/main.py line 10, in seconds. -/
def RETRY_DELAY : Nat := 1

/-- A JSON-like payload, opaque to the client (the decoded response body). -/
inductive Json where
  | null : Json
  | bool : Bool → Json
  | num : Int → Json
  | str : String → Json
  | arr : List Json → Json
  | obj : List (String × Json) → Json

/-- A value placed in a Python parameter dict: either Python None or a
scalar. Floats are carried opaquely (tagged by their display text) since
no claim computes with them. -/
inductive PVal where
  | none : PVal
  | int : Int → PVal
  | str : String → PVal
  | bool : Bool → PVal
  | flt : String → PVal
deriving DecidableEq

/-- The HTTP verb actually issued by make_api_request: requests.get on the
GET branch, requests.post otherwise (src/main.py lines 16-19). -/
inductive Verb where
  | get : Verb
  | post : Verb
deriving DecidableEq

/-- One outbound request as constructed inside the retry loop. -/
structure Request where
  verb : Verb
  url : String
  body : Option Json
  params : Option (List (String × PVal))

/-- The request built by one iteration of the loop in make_api_request
(src/main.py lines 16-19): if method == "GET" it is a GET with params and
no body, otherwise a POST with json=data and params. The URL is
BASE_URL ++ endpoint in both branches. -/
def requestFor (endpoint method : String) (data : Option Json)
    (params : Option (List (String × PVal))) : Request :=
  if method == "GET" then
    { verb := Verb.get, url := BASE_URL ++ endpoint, body := Option.none,
      params := params }
  else
    { verb := Verb.post, url := BASE_URL ++ endpoint, body := data,
      params := params }

/-- Outcome of one network attempt, as seen by the try block of
make_api_request. The three error constructors are the three ways the
attempt raises a requests.exceptions.RequestException: a transport-level
failure of requests.get/post, a non-2xx status surfaced by
response.raise_for_status (src/main.py line 21), and a body that
response.json() cannot decode (src/main.py line 22). Each error carries
its message str(e); the HTTP error also carries its status code. -/
inductive AttemptOutcome where
  | transportError : String → AttemptOutcome
  | httpError : Nat → String → AttemptOutcome
  | decodeError : String → AttemptOutcome
  | success : Json → AttemptOutcome

/-- Whether the attempt raised (entered the except clause). -/
def AttemptOutcome.isError : AttemptOutcome → Bool
  | AttemptOutcome.transportError _ => true
  | AttemptOutcome.httpError _ _ => true
  | AttemptOutcome.decodeError _ => true
  | AttemptOutcome.success _ => false

/-- The message str(e) of the exception the attempt raised ("" on
success, which never reaches the except clause). -/
def AttemptOutcome.errMsg : AttemptOutcome → String
  | AttemptOutcome.transportError e => e
  | AttemptOutcome.httpError _ e => e
  | AttemptOutcome.decodeError e => e
  | AttemptOutcome.success _ => ""

/-- What one loop iteration decides to do after the attempt: return the
decoded payload (src/main.py line 22), sleep and continue (lines 28-29),
or report via st.error and re-raise (lines 26-27). -/
inductive StepAction where
  | returnPayload : Json → StepAction
  | sleepAndRetry : Nat → StepAction
  | reportAndRaise : String → StepAction

/-- The control-flow branch a step takes, forgetting the data it carries. -/
def StepAction.branch : StepAction → Nat
  | StepAction.returnPayload _ => 0
  | StepAction.sleepAndRetry _ => 1
  | StepAction.reportAndRaise _ => 2

/-- The except clause of make_api_request (src/main.py lines 24-29): if
attempt == MAX_RETRIES - 1, report and re-raise; otherwise sleep
RETRY_DELAY and continue. The branch depends only on the attempt index,
never on which error kind arrived. -/
def errorStep (attempt : Nat) (e : String) : StepAction :=
  if attempt == MAX_RETRIES - 1 then StepAction.reportAndRaise e
  else StepAction.sleepAndRetry RETRY_DELAY

/-- One full iteration of the loop body: success returns immediately; any
RequestException goes to the single except clause errorStep. -/
def attemptStep (attempt : Nat) : AttemptOutcome → StepAction
  | AttemptOutcome.success j => StepAction.returnPayload j
  | AttemptOutcome.transportError e => errorStep attempt e
  | AttemptOutcome.httpError _ e => errorStep attempt e
  | AttemptOutcome.decodeError e => errorStep attempt e

/-- How one invocation of make_api_request ends: with the decoded payload
(return response.json()), with the last exception re-raised past the
caller (the bare raise on line 27), or by falling off the loop returning
Python None (possible only if MAX_RETRIES were 0). -/
inductive CallResult where
  | payload : Json → CallResult
  | raised : String → CallResult
  | noneReturn : CallResult

/-- Whether the invocation ended by an exception escaping the client. -/
def CallResult.isRaised : CallResult → Bool
  | CallResult.raised _ => true
  | _ => false

/-- The st.error text on src/main.py line 26. -/
def failMessage (e : String) : String :=
  "Failed to connect to the backend after " ++ toString MAX_RETRIES ++
    " attempts: " ++ e

/-- Observable trace of one make_api_request invocation: its result, the
number of network calls made, the sleep durations in order, the st.error
messages shown, and the requests issued in order. -/
structure RunTrace where
  result : CallResult
  attempts : Nat
  sleeps : List Nat
  errorsShown : List String
  requests : List Request

/-- The retry loop of make_api_request (src/main.py lines 14-29), as
structural recursion on the remaining iterations of range(MAX_RETRIES).
The backend oracle gives the outcome of the attempt at each index. -/
def apiLoop (endpoint method : String) (data : Option Json)
    (params : Option (List (String × PVal)))
    (backend : Nat → AttemptOutcome) : Nat → Nat → RunTrace
  | _, 0 =>
      { result := CallResult.noneReturn, attempts := 0, sleeps := [],
        errorsShown := [], requests := [] }
  | attempt, r + 1 =>
      let req := requestFor endpoint method data params
      match attemptStep attempt (backend attempt) with
      | StepAction.returnPayload j =>
          { result := CallResult.payload j, attempts := 1, sleeps := [],
            errorsShown := [], requests := [req] }
      | StepAction.reportAndRaise e =>
          { result := CallResult.raised e, attempts := 1, sleeps := [],
            errorsShown := [failMessage e], requests := [req] }
      | StepAction.sleepAndRetry d =>
          let rest := apiLoop endpoint method data params backend
            (attempt + 1) r
          { result := rest.result, attempts := rest.attempts + 1,
            sleeps := d :: rest.sleeps, errorsShown := rest.errorsShown,
            requests := req :: rest.requests }

/-- One invocation of make_api_request: the loop starts at attempt 0 with
MAX_RETRIES iterations available (for attempt in range(MAX_RETRIES)). -/
def make_api_request (endpoint method : String) (data : Option Json)
    (params : Option (List (String × PVal)))
    (backend : Nat → AttemptOutcome) : RunTrace :=
  apiLoop endpoint method data params backend 0 MAX_RETRIES

/-- Two successive, independent invocations of make_api_request, each with
its own backend oracle. The Python function holds no state between calls
(the attempt counter is the local loop variable), so the composition is
just the pair of the two independent runs. -/
def run_two (endpoint method : String) (data : Option Json)
    (params : Option (List (String × PVal)))
    (b1 b2 : Nat → AttemptOutcome) : RunTrace × RunTrace :=
  (make_api_request endpoint method data params b1,
   make_api_request endpoint method data params b2)

/-- The configuration mapping returned by config_section
(src/main.py lines 130-136): five keys, with mixed_percentage mapped to
the slider value when retrieval_weight is the string Mixed and to Python
None otherwise. -/
def config_section (doc_correlation : PVal) (recall_number : Int)
    (retrieval_weight : String) (mixed_percentage : Int)
    (rerank_enabled : Bool) : List (String × PVal) :=
  [("doc_correlation", doc_correlation),
   ("recall_number", PVal.int recall_number),
   ("retrieval_weight", PVal.str retrieval_weight),
   ("mixed_percentage",
     if retrieval_weight == "Mixed" then PVal.int mixed_percentage
     else PVal.none),
   ("rerank_enabled", PVal.bool rerank_enabled)]

/-- Python dict lookup on the parameter mapping: Option.none when the key
is absent, some v when present (even when v is the Python None value). -/
def plookup (m : List (String × PVal)) (k : String) : Option PVal :=
  (m.find? (fun p => p.1 == k)).map Prod.snd

/-- The three make_api_request call sites in main, in order
(src/main.py lines 155-159, 162, 174-178): POST the query to
/query/submit, POST with no body to /query/retrieve, POST the
configuration as query params to /vector-search/configure. -/
def main_call_requests (query : String)
    (config : List (String × PVal)) : List Request :=
  [requestFor "/query/submit" "POST"
     (Option.some (Json.obj [("query", Json.str query)])) Option.none,
   requestFor "/query/retrieve" "POST" Option.none Option.none,
   requestFor "/vector-search/configure" "POST" Option.none
     (Option.some config)]

/-- Python truthiness of a decoded JSON value (None, False, 0, empty
string, empty list and empty dict are falsy). -/
def Json.truthy : Json → Bool
  | Json.null => false
  | Json.bool b => b
  | Json.num n => n != 0
  | Json.str s => s != ""
  | Json.arr xs => !xs.isEmpty
  | Json.obj fs => !fs.isEmpty

/-- Python results.get(key) on a decoded payload: the value when the
payload is a dict containing the key, None otherwise. -/
def dictGet (j : Json) (k : String) : Option Json :=
  match j with
  | Json.obj fs => (fs.find? (fun p => p.1 == k)).map Prod.snd
  | _ => Option.none

/-- Outcome of the results-handling branch of the Retrieval flow: the new
value of st.session_state.search_results (an Option, since the key may
never have been set) and whether st.warning was shown. -/
structure RetrievalEffect where
  search_results : Option Json
  warned : Bool

/-- The branch of main after a successful retrieve call
(src/main.py lines 164-167): if results.get("results") is truthy, store
it in st.session_state.search_results; otherwise show a warning and leave
the stored results untouched. -/
def retrieval_step (prev : Option Json) (resp : Json) : RetrievalEffect :=
  match dictGet resp "results" with
  | Option.some v =>
      if v.truthy then { search_results := Option.some v, warned := false }
      else { search_results := prev, warned := true }
  | Option.none => { search_results := prev, warned := true }

/-! ### Step lemmas for the retry loop -/

lemma attemptStep_of_isError (a : Nat) (o : AttemptOutcome)
    (h : o.isError = true) :
    attemptStep a o = errorStep a o.errMsg := by
  cases o with
  | success j => simp [AttemptOutcome.isError] at h
  | transportError e => rfl
  | httpError s e => rfl
  | decodeError e => rfl

lemma apiLoop_step_success (endpoint method : String) (data : Option Json)
    (params : Option (List (String × PVal))) (b : Nat → AttemptOutcome)
    (a r : Nat) (j : Json) (h : b a = AttemptOutcome.success j) :
    apiLoop endpoint method data params b a (r + 1) =
      { result := CallResult.payload j, attempts := 1, sleeps := [],
        errorsShown := [],
        requests := [requestFor endpoint method data params] } := by
  simp only [apiLoop, h, attemptStep]

lemma apiLoop_step_error (endpoint method : String) (data : Option Json)
    (params : Option (List (String × PVal))) (b : Nat → AttemptOutcome)
    (a r : Nat) (h : (b a).isError = true) :
    apiLoop endpoint method data params b a (r + 1) =
      if a == MAX_RETRIES - 1 then
        { result := CallResult.raised ((b a).errMsg), attempts := 1,
          sleeps := [], errorsShown := [failMessage ((b a).errMsg)],
          requests := [requestFor endpoint method data params] }
      else
        { result := (apiLoop endpoint method data params b (a + 1) r).result,
          attempts :=
            (apiLoop endpoint method data params b (a + 1) r).attempts + 1,
          sleeps := RETRY_DELAY ::
            (apiLoop endpoint method data params b (a + 1) r).sleeps,
          errorsShown :=
            (apiLoop endpoint method data params b (a + 1) r).errorsShown,
          requests := requestFor endpoint method data params ::
            (apiLoop endpoint method data params b (a + 1) r).requests } := by
  rw [show apiLoop endpoint method data params b a (r + 1) =
      (match attemptStep a (b a) with
       | StepAction.returnPayload j =>
           { result := CallResult.payload j, attempts := 1, sleeps := [],
             errorsShown := [],
             requests := [requestFor endpoint method data params] }
       | StepAction.reportAndRaise e =>
           { result := CallResult.raised e, attempts := 1, sleeps := [],
             errorsShown := [failMessage e],
             requests := [requestFor endpoint method data params] }
       | StepAction.sleepAndRetry d =>
           let rest := apiLoop endpoint method data params b (a + 1) r
           { result := rest.result, attempts := rest.attempts + 1,
             sleeps := d :: rest.sleeps, errorsShown := rest.errorsShown,
             requests := requestFor endpoint method data params ::
               rest.requests } : RunTrace) from rfl]
  rw [attemptStep_of_isError a (b a) h, errorStep]
  cases hc : (a == MAX_RETRIES - 1) <;> simp [hc]

/-! ### Shape lemmas for whole runs -/

lemma apiLoop_allFail (endpoint method : String) (data : Option Json)
    (params : Option (List (String × PVal))) (b : Nat → AttemptOutcome)
    (hb : ∀ i, (b i).isError = true) :
    ∀ r a, a + r = MAX_RETRIES → 0 < r →
    apiLoop endpoint method data params b a r =
      { result := CallResult.raised ((b (MAX_RETRIES - 1)).errMsg),
        attempts := r,
        sleeps := List.replicate (r - 1) RETRY_DELAY,
        errorsShown := [failMessage ((b (MAX_RETRIES - 1)).errMsg)],
        requests :=
          List.replicate r (requestFor endpoint method data params) } := by
  intro r
  induction r with
  | zero => intro a _ h0; exact absurd h0 (by simp)
  | succ r ih =>
      intro a ha _
      rw [apiLoop_step_error endpoint method data params b a r (hb a)]
      cases hc : (a == MAX_RETRIES - 1) with
      | true =>
          have hae : a = MAX_RETRIES - 1 := by simpa using hc
          have hr : r = 0 := by
            simp only [MAX_RETRIES] at ha hae; omega
          subst hr
          simp [hae]
      | false =>
          have hane : a ≠ MAX_RETRIES - 1 := by simpa using hc
          obtain ⟨r', rfl⟩ : ∃ r', r = r' + 1 := by
            refine ⟨r - 1, ?_⟩
            simp only [MAX_RETRIES] at ha hane ⊢; omega
          rw [if_neg (by simp [hc])]
          rw [ih (a + 1) (by omega) (by omega)]
          simp [List.replicate_succ]

lemma apiLoop_upto_success (endpoint method : String) (data : Option Json)
    (params : Option (List (String × PVal))) (b : Nat → AttemptOutcome)
    (j : Json) :
    ∀ k a r, k < r → a + r = MAX_RETRIES →
    (∀ i, i < k → (b (a + i)).isError = true) →
    b (a + k) = AttemptOutcome.success j →
    apiLoop endpoint method data params b a r =
      { result := CallResult.payload j, attempts := k + 1,
        sleeps := List.replicate k RETRY_DELAY, errorsShown := [],
        requests :=
          List.replicate (k + 1)
            (requestFor endpoint method data params) } := by
  intro k
  induction k with
  | zero =>
      intro a r hk ha _ hs
      obtain ⟨r', rfl⟩ : ∃ r', r = r' + 1 := ⟨r - 1, by omega⟩
      rw [apiLoop_step_success endpoint method data params b a r' j
        (by simpa using hs)]
      simp
  | succ k ih =>
      intro a r hk ha hf hs
      obtain ⟨r', rfl⟩ : ∃ r', r = r' + 1 := ⟨r - 1, by omega⟩
      have hfa : (b a).isError = true := by simpa using hf 0 (by omega)
      rw [apiLoop_step_error endpoint method data params b a r' hfa]
      have hane : (a == MAX_RETRIES - 1) = false := by
        have : a ≠ MAX_RETRIES - 1 := by
          simp only [MAX_RETRIES] at ha ⊢; omega
        simpa using this
      rw [if_neg (by simp [hane])]
      have hf' : ∀ i, i < k → (b (a + 1 + i)).isError = true := by
        intro i hi
        have h2 := hf (i + 1) (by omega)
        rwa [show a + (i + 1) = a + 1 + i from by omega] at h2
      have hs' : b (a + 1 + k) = AttemptOutcome.success j := by
        rwa [show a + (k + 1) = a + 1 + k from by omega] at hs
      rw [ih (a + 1) r' (by omega) (by omega) hf' hs']
      simp [List.replicate_succ]

lemma isError_false_success (o : AttemptOutcome)
    (h : ¬ o.isError = true) : ∃ j, o = AttemptOutcome.success j := by
  cases o with
  | success j => exact ⟨j, rfl⟩
  | transportError e => exact absurd rfl h
  | httpError s e => exact absurd rfl h
  | decodeError e => exact absurd rfl h

lemma apiLoop_attempts_pos (endpoint method : String) (data : Option Json)
    (params : Option (List (String × PVal))) (b : Nat → AttemptOutcome) :
    ∀ r a, 0 < r →
    0 < (apiLoop endpoint method data params b a r).attempts := by
  intro r
  cases r with
  | zero => intro a h; exact absurd h (by simp)
  | succ r =>
      intro a _
      by_cases hE : (b a).isError = true
      · rw [apiLoop_step_error endpoint method data params b a r hE]
        cases hc : (a == MAX_RETRIES - 1) <;> simp [hc]
      · obtain ⟨j, hj⟩ := isError_false_success (b a) hE
        rw [apiLoop_step_success endpoint method data params b a r j hj]
        simp

lemma apiLoop_shape (endpoint method : String) (data : Option Json)
    (params : Option (List (String × PVal))) (b : Nat → AttemptOutcome) :
    ∀ r a, a + r = MAX_RETRIES →
    (apiLoop endpoint method data params b a r).requests =
      List.replicate (apiLoop endpoint method data params b a r).attempts
        (requestFor endpoint method data params) ∧
    (apiLoop endpoint method data params b a r).sleeps =
      List.replicate
        ((apiLoop endpoint method data params b a r).attempts - 1)
        RETRY_DELAY := by
  intro r
  induction r with
  | zero => intro a _; exact ⟨rfl, rfl⟩
  | succ r ih =>
      intro a ha
      by_cases hE : (b a).isError = true
      · rw [apiLoop_step_error endpoint method data params b a r hE]
        cases hc : (a == MAX_RETRIES - 1) with
        | true => simp
        | false =>
            rw [if_neg (by simp [hc])]
            have hane : a ≠ MAX_RETRIES - 1 := by simpa using hc
            have hrpos : 0 < r := by
              simp only [MAX_RETRIES] at ha hane ⊢; omega
            have hpos := apiLoop_attempts_pos endpoint method data params
              b r (a + 1) hrpos
            obtain ⟨hreq, hsl⟩ := ih (a + 1) (by omega)
            constructor
            · simp only [hreq, List.replicate_succ]
            · cases hr : (apiLoop endpoint method data params b
                  (a + 1) r).attempts with
              | zero => rw [hr] at hpos; exact absurd hpos (by simp)
              | succ n =>
                  simp only [hsl, hr, List.replicate_succ]
                  rfl
      · obtain ⟨j, hj⟩ := isError_false_success (b a) hE
        rw [apiLoop_step_success endpoint method data params b a r j hj]
        simp

/-! ### Claim theorems -/

/-- C1: if every attempted network call raises a request exception, one
invocation of make_api_request performs exactly MAX_RETRIES = 10
attempts, sleeps RETRY_DELAY between each pair of consecutive attempts
(MAX_RETRIES - 1 sleeps in total), and then surfaces the terminal
failure: the st.error report and the re-raised last error — never more
and never fewer attempts. -/
theorem C1_bounded_retries_on_persistent_failure
    (endpoint method : String) (data : Option Json)
    (params : Option (List (String × PVal))) (b : Nat → AttemptOutcome)
    (hb : ∀ i, (b i).isError = true) :
    MAX_RETRIES = 10 ∧
    (make_api_request endpoint method data params b).attempts =
      MAX_RETRIES ∧
    (make_api_request endpoint method data params b).sleeps =
      List.replicate (MAX_RETRIES - 1) RETRY_DELAY ∧
    (make_api_request endpoint method data params b).result =
      CallResult.raised ((b (MAX_RETRIES - 1)).errMsg) ∧
    (make_api_request endpoint method data params b).errorsShown =
      [failMessage ((b (MAX_RETRIES - 1)).errMsg)] := by
  rw [make_api_request,
    apiLoop_allFail endpoint method data params b hb MAX_RETRIES 0
      (Nat.zero_add _) (by decide)]
  exact ⟨rfl, rfl, rfl, rfl, rfl⟩

/-- Witness for C1 at a backend that raises a connection error on every
attempt. -/
theorem C1_bounded_retries_on_persistent_failure_witness :
    MAX_RETRIES = 10 ∧
    (make_api_request "/query/retrieve" "POST" Option.none Option.none
      (fun _ => AttemptOutcome.transportError "connection refused")
      ).attempts = MAX_RETRIES ∧
    (make_api_request "/query/retrieve" "POST" Option.none Option.none
      (fun _ => AttemptOutcome.transportError "connection refused")
      ).sleeps = List.replicate (MAX_RETRIES - 1) RETRY_DELAY ∧
    (make_api_request "/query/retrieve" "POST" Option.none Option.none
      (fun _ => AttemptOutcome.transportError "connection refused")
      ).result = CallResult.raised
        (((fun _ => AttemptOutcome.transportError "connection refused")
          (MAX_RETRIES - 1) : AttemptOutcome).errMsg) ∧
    (make_api_request "/query/retrieve" "POST" Option.none Option.none
      (fun _ => AttemptOutcome.transportError "connection refused")
      ).errorsShown = [failMessage
        (((fun _ => AttemptOutcome.transportError "connection refused")
          (MAX_RETRIES - 1) : AttemptOutcome).errMsg)] :=
  C1_bounded_retries_on_persistent_failure "/query/retrieve" "POST"
    Option.none Option.none
    (fun _ => AttemptOutcome.transportError "connection refused")
    (fun _ => rfl)

/-- C2 counterexample: with a backend that raises on every attempt, the
invocation ends with the last exception re-raised past the client
boundary (the bare raise on src/main.py line 27), not with a sentinel
return value — so an exception does escape the client boundary. -/
theorem C2_counterexample_exception_escapes :
    ((make_api_request "/query/retrieve" "POST" Option.none Option.none
        (fun _ => AttemptOutcome.transportError "connection refused")
      ).result).isRaised = true ∧
    (make_api_request "/query/retrieve" "POST" Option.none Option.none
        (fun _ => AttemptOutcome.transportError "connection refused")
      ).result = CallResult.raised "connection refused" :=
  ⟨rfl, rfl⟩

/-- C2 amended: after exhausting retries, make_api_request reports the
failure through st.error and then re-raises the last error; the
exception escapes to the caller rather than a sentinel value being
returned. -/
theorem C2_amended_reraise_after_exhaustion
    (endpoint method : String) (data : Option Json)
    (params : Option (List (String × PVal))) (b : Nat → AttemptOutcome)
    (hb : ∀ i, (b i).isError = true) :
    (make_api_request endpoint method data params b).result =
      CallResult.raised ((b (MAX_RETRIES - 1)).errMsg) ∧
    ((make_api_request endpoint method data params b).result).isRaised =
      true ∧
    (make_api_request endpoint method data params b).errorsShown =
      [failMessage ((b (MAX_RETRIES - 1)).errMsg)] := by
  rw [make_api_request,
    apiLoop_allFail endpoint method data params b hb MAX_RETRIES 0
      (Nat.zero_add _) (by decide)]
  exact ⟨rfl, rfl, rfl⟩

/-- Witness for the amended C2 at a backend that raises a timeout on
every attempt. -/
theorem C2_amended_reraise_after_exhaustion_witness :
    (make_api_request "/query/submit" "POST" Option.none Option.none
      (fun _ => AttemptOutcome.transportError "timeout")).result =
      CallResult.raised
        (((fun _ => AttemptOutcome.transportError "timeout")
          (MAX_RETRIES - 1) : AttemptOutcome).errMsg) ∧
    ((make_api_request "/query/submit" "POST" Option.none Option.none
      (fun _ => AttemptOutcome.transportError "timeout")).result
      ).isRaised = true ∧
    (make_api_request "/query/submit" "POST" Option.none Option.none
      (fun _ => AttemptOutcome.transportError "timeout")).errorsShown =
      [failMessage
        (((fun _ => AttemptOutcome.transportError "timeout")
          (MAX_RETRIES - 1) : AttemptOutcome).errMsg)] :=
  C2_amended_reraise_after_exhaustion "/query/submit" "POST"
    Option.none Option.none
    (fun _ => AttemptOutcome.transportError "timeout") (fun _ => rfl)

/-- C3: if the first k attempts fail and attempt k + 1 succeeds with a
decodable body, make_api_request returns that decoded payload and makes
exactly k + 1 network calls — no further attempt after the first
success. -/
theorem C3_returns_on_first_success
    (endpoint method : String) (data : Option Json)
    (params : Option (List (String × PVal))) (b : Nat → AttemptOutcome)
    (k : Nat) (j : Json) (hk : k < MAX_RETRIES)
    (hf : ∀ i, i < k → (b i).isError = true)
    (hs : b k = AttemptOutcome.success j) :
    (make_api_request endpoint method data params b).result =
      CallResult.payload j ∧
    (make_api_request endpoint method data params b).attempts = k + 1 := by
  rw [make_api_request,
    apiLoop_upto_success endpoint method data params b j k 0 MAX_RETRIES
      hk (Nat.zero_add _) (fun i hi => by simpa using hf i hi)
      (by simpa using hs)]
  exact ⟨rfl, rfl⟩

/-- Witness for C3: three failures then a success returns the payload on
the fourth call, and an immediately succeeding backend causes exactly
one call. -/
theorem C3_returns_on_first_success_witness :
    ((make_api_request "/query/retrieve" "POST" Option.none Option.none
        (fun i => if i < 3 then AttemptOutcome.transportError "refused"
          else AttemptOutcome.success (Json.str "ok"))).result =
      CallResult.payload (Json.str "ok") ∧
    (make_api_request "/query/retrieve" "POST" Option.none Option.none
        (fun i => if i < 3 then AttemptOutcome.transportError "refused"
          else AttemptOutcome.success (Json.str "ok"))).attempts =
      3 + 1) ∧
    ((make_api_request "/query/submit" "POST" Option.none Option.none
        (fun _ => AttemptOutcome.success (Json.str "ack"))).result =
      CallResult.payload (Json.str "ack") ∧
    (make_api_request "/query/submit" "POST" Option.none Option.none
        (fun _ => AttemptOutcome.success (Json.str "ack"))).attempts =
      0 + 1) :=
  ⟨C3_returns_on_first_success "/query/retrieve" "POST" Option.none
      Option.none _ 3 (Json.str "ok") (by decide)
      (fun i hi => by simp only [if_pos hi]; rfl) (by rfl),
   C3_returns_on_first_success "/query/submit" "POST" Option.none
      Option.none _ 0 (Json.str "ack") (by decide)
      (fun i hi => absurd hi (by omega)) rfl⟩

/-- C4 counterexample: with retrieval_weight Semantic, the configuration
mapping built by config_section still contains the key mixed_percentage
— bound to the Python None value (src/main.py line 134) — so the field
is not omitted from the parameter mapping. -/
theorem C4_counterexample_key_not_omitted :
    plookup (config_section (PVal.flt "0.85") 10 "Semantic" 50 false)
      "mixed_percentage" = Option.some PVal.none ∧
    (plookup (config_section (PVal.flt "0.85") 10 "Semantic" 50 false)
      "mixed_percentage").isSome = true :=
  ⟨rfl, rfl⟩

/-- C4 amended: with retrieval_weight Mixed the mapping carries both
retrieval_weight and the mixed_percentage value; with Semantic or
Keyword the mixed_percentage key is still present but bound to None
(rather than omitted; the HTTP layer would drop a None-valued query
parameter only at encoding time). -/
theorem C4_amended_mixed_percentage_none
    (d : PVal) (rec mp : Int) (re : Bool) :
    plookup (config_section d rec "Mixed" mp re) "mixed_percentage" =
      Option.some (PVal.int mp) ∧
    plookup (config_section d rec "Mixed" mp re) "retrieval_weight" =
      Option.some (PVal.str "Mixed") ∧
    plookup (config_section d rec "Semantic" mp re) "mixed_percentage" =
      Option.some PVal.none ∧
    plookup (config_section d rec "Keyword" mp re) "mixed_percentage" =
      Option.some PVal.none :=
  ⟨rfl, rfl, rfl, rfl⟩

/-- C5: within one attempt, a transport error, a non-2xx HTTP status and
an undecodable body all take the same retry branch of the single except
clause — in particular the handling of an HTTP error is independent of
its status code (no 4xx versus 5xx distinction), and the step taken for
an HTTP error is literally identical for any two statuses. -/
theorem C5_errors_handled_uniformly (a : Nat) (e1 e2 e3 : String)
    (s s' : Nat) :
    (attemptStep a (AttemptOutcome.transportError e1)).branch =
      (attemptStep a (AttemptOutcome.httpError s e2)).branch ∧
    (attemptStep a (AttemptOutcome.decodeError e3)).branch =
      (attemptStep a (AttemptOutcome.httpError s e2)).branch ∧
    attemptStep a (AttemptOutcome.httpError s e2) =
      attemptStep a (AttemptOutcome.httpError s' e2) := by
  refine ⟨?_, ?_, rfl⟩ <;>
  · simp only [attemptStep, errorStep]
    cases hc : (a == MAX_RETRIES - 1) <;> simp [StepAction.branch]

/-- C6: every attempt of one make_api_request invocation issues the
identical request (the whole request list is one request value
replicated), and every pause between attempts is exactly RETRY_DELAY —
no mutation of method, URL, body or params between retries, and no
backoff growth or jitter in the delay. -/
theorem C6_request_fidelity_across_retries
    (endpoint method : String) (data : Option Json)
    (params : Option (List (String × PVal))) (b : Nat → AttemptOutcome) :
    (make_api_request endpoint method data params b).requests =
      List.replicate
        (make_api_request endpoint method data params b).attempts
        (requestFor endpoint method data params) ∧
    (make_api_request endpoint method data params b).sleeps =
      List.replicate
        ((make_api_request endpoint method data params b).attempts - 1)
        RETRY_DELAY :=
  apiLoop_shape endpoint method data params b MAX_RETRIES 0
    (Nat.zero_add _)

/-- C7 counterexample: main makes exactly three make_api_request calls,
and none of them targets the /query/similarity endpoint — there is no
fourth find-similar-queries operation in the code. -/
theorem C7_counterexample_no_similarity_endpoint :
    (main_call_requests "example query"
        (config_section (PVal.flt "0.85") 10 "Mixed" 50 false)).length =
      3 ∧
    ((main_call_requests "example query"
        (config_section (PVal.flt "0.85") 10 "Mixed" 50 false)).map
          Request.url).contains (BASE_URL ++ "/query/similarity") =
      false :=
  ⟨rfl, rfl⟩

/-- C7 amended: the client is invoked for exactly three backend
operations — POST /query/submit, POST /query/retrieve and
POST /vector-search/configure; no get_similar_queries operation and no
/query/similarity endpoint exist in the code. -/
theorem C7_amended_three_operations (query : String)
    (config : List (String × PVal)) :
    (main_call_requests query config).map Request.url =
      [BASE_URL ++ "/query/submit", BASE_URL ++ "/query/retrieve",
       BASE_URL ++ "/vector-search/configure"] ∧
    (main_call_requests query config).map Request.verb =
      [Verb.post, Verb.post, Verb.post] ∧
    ((main_call_requests query config).map Request.url).contains
      (BASE_URL ++ "/query/similarity") = false :=
  ⟨rfl, rfl, rfl⟩

/-- C8: the attempt counter is local to each invocation — the outcome of
the second of two successive make_api_request calls is a function of its
own backend alone (unchanged if the first call is replaced by any
other), every invocation starts its loop at attempt 0 with the full
MAX_RETRIES budget, and an exhausted first call leaves a succeeding
second call making exactly one attempt. -/
theorem C8_no_state_across_invocations
    (endpoint method : String) (data : Option Json)
    (params : Option (List (String × PVal)))
    (b1 b1' b2 : Nat → AttemptOutcome) :
    (run_two endpoint method data params b1 b2).2 =
      (run_two endpoint method data params b1' b2).2 ∧
    (run_two endpoint method data params b1 b2).2 =
      apiLoop endpoint method data params b2 0 MAX_RETRIES ∧
    (run_two endpoint method data params b1 b2).1 =
      apiLoop endpoint method data params b1 0 MAX_RETRIES ∧
    (run_two endpoint method data params
        (fun _ => AttemptOutcome.transportError "refused")
        (fun _ => AttemptOutcome.success (Json.str "pong"))
      ).2.attempts = 1 :=
  ⟨rfl, rfl, rfl, rfl⟩

/-- C9: make_api_request issues a GET exactly when the method string is
GET and a POST for every other method string (a PUT is silently sent as
POST); the method argument is never validated or rejected. -/
theorem C9_get_else_post (endpoint : String) (data : Option Json)
    (params : Option (List (String × PVal))) (m : String)
    (hm : m ≠ "GET") :
    (requestFor endpoint "GET" data params).verb = Verb.get ∧
    (requestFor endpoint m data params).verb = Verb.post := by
  constructor
  · rfl
  · have hfalse : (m == "GET") = false := by
      cases h : (m == "GET") with
      | false => rfl
      | true => exact absurd (by simpa using h) hm
    simp [requestFor, hfalse]

/-- Witness for C9: the method string PUT is dispatched as a POST while
GET is dispatched as a GET. -/
theorem C9_get_else_post_witness :
    (requestFor "/query/retrieve" "GET" Option.none Option.none).verb =
      Verb.get ∧
    (requestFor "/query/retrieve" "PUT" Option.none Option.none).verb =
      Verb.post :=
  C9_get_else_post "/query/retrieve" Option.none Option.none "PUT"
    (by decide)

/-- C10: on the Retrieval flow, either the retrieve response carries a
truthy results field and the stored search results are overwritten with
it (no warning), or the stored results are left exactly as they were and
a warning is shown — so an absent or empty results field never clears
previously stored results. -/
theorem C10_stale_results_preserved (prev : Option Json) (resp : Json) :
    (∃ v, dictGet resp "results" = Option.some v ∧ v.truthy = true ∧
      retrieval_step prev resp =
        { search_results := Option.some v, warned := false }) ∨
    retrieval_step prev resp =
      { search_results := prev, warned := true } := by
  cases hv : dictGet resp "results" with
  | none => right; simp [retrieval_step, hv]
  | some v =>
      cases ht : v.truthy with
      | true => left; exact ⟨v, rfl, ht, by simp [retrieval_step, hv, ht]⟩
      | false => right; simp [retrieval_step, hv, ht]

end VectorClient
